import Mathlib

/-!
Shallow embedding of `etstool.py` (development-automation script of the
traits-enaml repository) and verification of its specification's claims.

Python sets of strings are modelled as duplicate-free `List String`; the
module-level configuration sets are gathered in a `Config` record which
`get_parameters` receives and returns, so that the mutation of a
module-level set (Python's `set.add` through an alias) is visible as a
changed `Config`.  Exceptions are modelled with `Except` / an `Outcome`
type, `sys.exit` with an `Option Nat` exit code, and the process /
filesystem state touched by `do_in_tempdir` with an explicit `PState`.
-/

namespace Etstool

/-- Python `x in s` for our list-as-set model. -/
def setMem (s : List String) (x : String) : Bool := s.contains x

/-- Python `a | b` on sets: keep `a`, then the elements of `b` not in `a`. -/
def setUnion (a b : List String) : List String :=
  a ++ b.filter (fun x => !(a.contains x))

/-- Python `s.add(x)`: insert `x` when absent. -/
def setAdd (s : List String) (x : String) : List String :=
  if s.contains x then s else s ++ [x]

/-- The module-level configuration sets of `etstool.py`. -/
structure Config where
  dependencies : List String
  test_dependencies : List String
  toolkits : List (String × List String)
  pypi_dependencies : List String
  repo_dependencies : List String
deriving Repr, DecidableEq

/-- The values of the module-level sets as written in `etstool.py`. -/
def initialConfig : Config where
  dependencies := ["apptools", "enable", "pyopengl", "six", "mayavi", "vtk"]
  test_dependencies := ["cython", "nose", "coverage", "wheel"]
  toolkits := [("pyside", ["pyside"]), ("pyqt4", ["pyqt<4.12"])]
  pypi_dependencies := ["traits", "traitsui", "pyopengl", "mayavi"]
  repo_dependencies :=
    ["git+https://github.com/nucleic/enaml.git#egg=enaml",
     "git+https://github.com/enthought/traits.git#egg=traits",
     "git+https://github.com/enthought/traitsui.git#egg=traitsui",
     "git+https://github.com/mcfletch/pyopengl.git#egg=pyopengl",
     "git+https://github.com/nucleic/atom.git#egg=atom",
     "git+https://github.com/enthought/mayavi.git#egg=mayavi"]

/-- The table `environment_vars` of `etstool.py` (keys `pyside` and `pyqt`). -/
def environment_vars : List (String × List (String × String)) :=
  [("pyside", [("ETS_TOOLKIT", "qt4"), ("QT_API", "pyside")]),
   ("pyqt", [("ETS_TOOLKIT", "qt4"), ("QT_API", "pyqt")])]

/-- The Parameter Set returned by `get_parameters`: the flat mapping
\x7bruntime, test_packages, edm_packages, pip_packages, environment\x7d. -/
structure Parameters where
  runtime : String
  test_packages : String
  edm_packages : String
  pip_packages : String
  environment : String
deriving Repr, DecidableEq

/-- `get_parameters(runtime, toolkit, environment, version='latest',
source='edm')` of `etstool.py`.  Returns the Parameter Set together with the
module configuration after the call (the `pypi` branch aliases the module
set `pypi_dependencies` and `add`s to it); an unrecognized `source` raises
`ValueError`, modelled as `Except.error`. -/
def get_parameters (cfg : Config) (runtime toolkit : String)
    (environment : Option String) (version source : String) :
    Except String (Parameters × Config) :=
  let edm_packages :=
    setUnion (setUnion cfg.test_dependencies cfg.dependencies)
      ((cfg.toolkits.lookup toolkit).getD [])
  let branch : Except String (List String × List String × Config) :=
    if source = "edm" then
      let pip_packages : List String := []
      let edm_packages :=
        if version = "latest" then setAdd edm_packages "enaml"
        else setAdd edm_packages ("enaml^=" ++ version)
      Except.ok (edm_packages, pip_packages, cfg)
    else if source = "pypi" then
      let pip_packages :=
        if version = "latest" then setAdd cfg.pypi_dependencies "enaml"
        else setAdd cfg.pypi_dependencies ("enaml==" ++ version)
      Except.ok (edm_packages, pip_packages,
        { cfg with pypi_dependencies := pip_packages })
    else if source = "github" then
      Except.ok (edm_packages, cfg.repo_dependencies, cfg)
    else
      Except.error ("Invalid value for the package source: " ++ source)
  match branch with
  | Except.error e => Except.error e
  | Except.ok (edm_packages, pip_packages, cfg') =>
    let environment :=
      match environment with
      | none => "traits-enaml-" ++ runtime ++ "-" ++ toolkit
      | some e => e
    Except.ok
      ({ runtime := runtime,
         test_packages := String.intercalate " " cfg.test_dependencies,
         edm_packages := String.intercalate " " edm_packages,
         pip_packages := String.intercalate " " pip_packages,
         environment := environment }, cfg')

/-- Splitting a string at every space character, as Python's
`"...".split(' ')` does on the space-joined package strings (structural
recursion on the character list, so that it evaluates in the kernel). -/
def splitCharsAux : List Char → List Char → List String
  | [], acc => [String.mk acc.reverse]
  | c :: cs, acc =>
    if c = ' ' then String.mk acc.reverse :: splitCharsAux cs []
    else splitCharsAux cs (c :: acc)

/-- The words of a space-separated string. -/
def splitSpaces (s : String) : List String := splitCharsAux s.data []

/-- The Parameter Set of a `get_parameters` result, when it did not raise. -/
def paramsOf (r : Except String (Parameters × Config)) : Option Parameters :=
  match r with
  | Except.ok (p, _) => some p
  | Except.error _ => none

/-- The module configuration after a `get_parameters` call that did not raise. -/
def configOf (r : Except String (Parameters × Config)) : Option Config :=
  match r with
  | Except.ok (_, c) => some c
  | Except.error _ => none

/-- Expected test packages (spec: the test dependencies). -/
def expected_test_packages : List String := ["cython", "nose", "coverage", "wheel"]

/-- Expected base packages (spec: the core dependencies). -/
def expected_base_packages : List String :=
  ["apptools", "enable", "pyopengl", "six", "mayavi", "vtk"]

/-- Expected toolkit packages for each recognized toolkit. -/
def expected_toolkit_packages (toolkit : String) : List String :=
  if toolkit = "pyside" then ["pyside"]
  else if toolkit = "pyqt4" then ["pyqt<4.12"]
  else []

/-- Expected edm-installed packages for a (toolkit, source) pair, at the
default version `latest`: test, base and toolkit packages, and the enaml
entry when the source is `edm`. -/
def expected_edm_packages (toolkit source : String) : List String :=
  expected_test_packages ++ expected_base_packages
    ++ expected_toolkit_packages toolkit
    ++ (if source = "edm" then ["enaml"] else [])

/-- Expected pip-installed packages for each source, at version `latest`. -/
def expected_pip_packages (source : String) : List String :=
  if source = "pypi" then ["traits", "traitsui", "pyopengl", "mayavi", "enaml"]
  else if source = "github" then
    ["git+https://github.com/nucleic/enaml.git#egg=enaml",
     "git+https://github.com/enthought/traits.git#egg=traits",
     "git+https://github.com/enthought/traitsui.git#egg=traitsui",
     "git+https://github.com/mcfletch/pyopengl.git#egg=pyopengl",
     "git+https://github.com/nucleic/atom.git#egg=atom",
     "git+https://github.com/enthought/mayavi.git#egg=mayavi"]
  else []

/-- The outcome of running an action: normal completion or a raised
exception (carrying a message). -/
inductive Outcome (α : Type) where
  | ok (a : α)
  | exn (e : String)
deriving Repr, DecidableEq

/-- The process and filesystem state touched by `do_in_tempdir`: the current
working directory, the set of existing directories, the files copied into
the temporary directory, and the result files copied back to the original
directory. -/
structure PState where
  cwd : String
  dirs : List String
  tempFiles : List String
  returnedFiles : List String
deriving Repr, DecidableEq

/-- `path = mkdtemp()`: a fresh directory comes into existence. -/
def mkdtempStep (path : String) (s : PState) : PState :=
  { s with dirs := path :: s.dirs }

/-- `os.chdir(p)`. -/
def chdirStep (p : String) (s : PState) : PState := { s with cwd := p }

/-- `rmtree(path)`: the directory and its contents cease to exist. -/
def rmtreeStep (path : String) (s : PState) : PState :=
  { s with dirs := s.dirs.filter (fun d => d ≠ path) }

/-- The `for filepath in files: copyfile(filepath, path)` loop. -/
def copyInStep (files : List String) (s : PState) : PState :=
  { s with tempFiles := s.tempFiles ++ files }

/-- The `for pattern in capture_files: for filepath in glob.iglob(pattern):
copyfile(filepath, old_path)` loop; the glob results are abstracted as the
patterns themselves. -/
def copyBackStep (capture_files : List String) (s : PState) : PState :=
  { s with returnedFiles := s.returnedFiles ++ capture_files }

/-- `do_in_tempdir(files, capture_files)` of `etstool.py` wrapped around an
action: create the temporary directory, remember the original working
directory, copy `files` across, change into the temporary directory, run
the action; on its normal completion copy the `capture_files` back; in the
`finally` block change back to the original directory and remove the
temporary directory. -/
def do_in_tempdir (files capture_files : List String) (path : String)
    (action : PState → Outcome Unit × PState) (s : PState) :
    Outcome Unit × PState :=
  let old_path := s.cwd
  let s3 := chdirStep path (copyInStep files (mkdtempStep path s))
  match action s3 with
  | (Outcome.ok u, s4) =>
    (Outcome.ok u, rmtreeStep path (chdirStep old_path (copyBackStep capture_files s4)))
  | (Outcome.exn e, s4) =>
    (Outcome.exn e, rmtreeStep path (chdirStep old_path s4))

/-- One log line of the Command Executor: the `[EXECUTING]` echo of the
formatted command, or the `[DURATION]` echo from the `finally` block. -/
inductive ExecEvent where
  | executing (arguments : String)
  | duration (arguments : String)
deriving Repr, DecidableEq

/-- The value `parameters[name]` substituted for the placeholder `name`;
the script's command templates only use the five keys of the Parameter
Set. -/
def fieldValue (p : Parameters) (name : String) : String :=
  if name = "runtime" then p.runtime
  else if name = "test_packages" then p.test_packages
  else if name = "edm_packages" then p.edm_packages
  else if name = "pip_packages" then p.pip_packages
  else if name = "environment" then p.environment
  else ""

/-- Character-level model of Python `command.format(**parameters)` on the
script's plain templates: outside braces characters pass through, between
a brace pair the accumulated name is looked up in the Parameter Set.  The
second argument is `some acc` while inside a brace pair. -/
def formatChars (p : Parameters) : List Char → Option (List Char) → List Char
  | [], _ => []
  | c :: rest, some acc =>
    if c = '}' then (fieldValue p (String.mk acc.reverse)).data ++ formatChars p rest none
    else formatChars p rest (some (c :: acc))
  | c :: rest, none =>
    if c = '{' then formatChars p rest (some [])
    else c :: formatChars p rest none

/-- `command.format(**parameters)`. -/
def pyFormat (p : Parameters) (command : String) : String :=
  String.mk (formatChars p command.data none)

/-- `execute(commands, parameters)` of `etstool.py`.  `run` gives the exit
status of a child process (`subprocess.check_call` raises exactly on a
non-zero status); the result is the ordered log of echoes and `some 1` when
the script terminated through `sys.exit(1)` (the `finally` block echoes the
duration before the exit propagates), `none` when every command succeeded. -/
def execute (run : String → Int) (commands : List String) (parameters : Parameters) :
    List ExecEvent × Option Nat :=
  match commands with
  | [] => ([], none)
  | command :: rest =>
    let arguments := pyFormat parameters command
    if run arguments = 0 then
      let r := execute run rest parameters
      (ExecEvent.executing arguments :: ExecEvent.duration arguments :: r.1, r.2)
    else
      ([ExecEvent.executing arguments, ExecEvent.duration arguments], some 1)

/-- The full log of a command list each of whose commands succeeds: an
`[EXECUTING]` and a `[DURATION]` line per command, in command order. -/
def commandLog (parameters : Parameters) : List String → List ExecEvent
  | [] => []
  | c :: rest =>
    ExecEvent.executing (pyFormat parameters c)
      :: ExecEvent.duration (pyFormat parameters c)
      :: commandLog parameters rest

/-- A click option of the script: its name and, when restricted, its
`click.Choice` values. -/
structure CliOption where
  name : String
  choices : Option (List String)
deriving Repr, DecidableEq

/-- A CLI subcommand: the options its decorators declare, and the parameter
names of the decorated function.  click invokes the function with one
keyword argument per declared option. -/
structure CliCommand where
  options : List CliOption
  funParams : List String
deriving Repr, DecidableEq

/-- The recognized toolkit flag values. -/
def toolkitChoices : List String := ["pyside", "pyqt4"]

/-- The `install` subcommand's decorators and signature. -/
def install_command : CliCommand where
  options := [⟨"runtime", none⟩, ⟨"toolkit", some toolkitChoices⟩,
    ⟨"environment", none⟩, ⟨"enaml", none⟩,
    ⟨"source", some ["edm", "pypi", "github"]⟩]
  funParams := ["runtime", "toolkit", "environment", "enaml", "source"]

/-- The `test` subcommand's decorators and signature. -/
def test_command : CliCommand where
  options := [⟨"runtime", none⟩, ⟨"toolkit", some toolkitChoices⟩,
    ⟨"environment", none⟩]
  funParams := ["runtime", "toolkit", "environment"]

/-- The `cleanup` subcommand's decorators and signature. -/
def cleanup_command : CliCommand where
  options := [⟨"runtime", none⟩, ⟨"toolkit", some toolkitChoices⟩,
    ⟨"environment", none⟩]
  funParams := ["runtime", "toolkit", "environment"]

/-- The `test_clean` subcommand's decorators and signature: three options
are declared but the function accepts only `runtime` and `toolkit`. -/
def test_clean_command : CliCommand where
  options := [⟨"runtime", none⟩, ⟨"toolkit", some toolkitChoices⟩,
    ⟨"environment", none⟩]
  funParams := ["runtime", "toolkit"]

/-- The `update` subcommand's decorators and signature. -/
def update_command : CliCommand where
  options := [⟨"runtime", none⟩, ⟨"toolkit", some toolkitChoices⟩,
    ⟨"environment", none⟩]
  funParams := ["runtime", "toolkit", "environment"]

/-- click passes every declared option as a keyword argument, so the call
raises `TypeError` exactly when some declared option is not a parameter of
the decorated function. -/
def invocationRaisesTypeError (c : CliCommand) : Bool :=
  !(c.options.all (fun o => c.funParams.contains o.name))

/-- A script step as `test_clean` runs it (`standalone_mode=False`, so
exceptions propagate): the log of steps it performs and its outcome. -/
def ScriptStep : Type := List String × Outcome Unit

/-- Python `a; b`: run `a`; on normal completion run `b`, else re-raise. -/
def andThen (a b : ScriptStep) : ScriptStep :=
  match a with
  | (l, Outcome.ok _) => (l ++ b.1, b.2)
  | (l, Outcome.exn e) => (l, Outcome.exn e)

/-- Python `try: body finally: fin`: `fin` runs on every path; an exception
raised by `fin` replaces the body's outcome, otherwise the body's outcome
stands. -/
def tryFinally (body fin : ScriptStep) : ScriptStep :=
  match body, fin with
  | (l, Outcome.ok u), (lf, Outcome.ok _) => (l ++ lf, Outcome.ok u)
  | (l, Outcome.ok _), (lf, Outcome.exn ef) => (l ++ lf, Outcome.exn ef)
  | (l, Outcome.exn e), (lf, Outcome.ok _) => (l ++ lf, Outcome.exn e)
  | (l, Outcome.exn _), (lf, Outcome.exn ef) => (l ++ lf, Outcome.exn ef)

/-- The body of the `test_clean` subcommand (lines 234-239 of the script):
`try: install(...); test(...) finally: cleanup(...)`. -/
def test_clean (installStep testStep cleanupStep : ScriptStep) : ScriptStep :=
  tryFinally (andThen installStep testStep) cleanupStep

/-- The environment variables the `test` subcommand applies:
`environment_vars.get(toolkit, {})` updated with `PYTHONUNBUFFERED=1`
(a key of neither table, so the update appends). -/
def test_environ (toolkit : String) : List (String × String) :=
  ((environment_vars.lookup toolkit).getD []) ++ [("PYTHONUNBUFFERED", "1")]

end Etstool

namespace Etstool

/-- C1: for every valid toolkit and every valid source, each of the three
dependency-string fields of the Parameter Set returned by `get_parameters`
(on the script's module configuration) is a space-separated string in which
every expected package name occurs exactly once. -/
theorem get_parameters_each_package_once (runtime : String) (env : Option String)
    (toolkit source : String)
    (ht : toolkit = "pyside" ∨ toolkit = "pyqt4")
    (hs : source = "edm" ∨ source = "pypi" ∨ source = "github") :
    ∃ p : Parameters,
      paramsOf (get_parameters initialConfig runtime toolkit env "latest" source) = some p
      ∧ (∀ name ∈ expected_test_packages, (splitSpaces p.test_packages).count name = 1)
      ∧ (∀ name ∈ expected_edm_packages toolkit source,
          (splitSpaces p.edm_packages).count name = 1)
      ∧ (∀ name ∈ expected_pip_packages source,
          (splitSpaces p.pip_packages).count name = 1) := by
  rcases ht with rfl | rfl <;> rcases hs with rfl | rfl | rfl <;>
    exact ⟨_, rfl, of_decide_eq_true rfl, of_decide_eq_true rfl, of_decide_eq_true rfl⟩

/-- Witness for C1 at toolkit `pyside`, source `edm`. -/
theorem get_parameters_each_package_once_witness :
    ∃ p : Parameters,
      paramsOf (get_parameters initialConfig "2.7" "pyside" none "latest" "edm") = some p
      ∧ (∀ name ∈ expected_test_packages, (splitSpaces p.test_packages).count name = 1)
      ∧ (∀ name ∈ expected_edm_packages "pyside" "edm",
          (splitSpaces p.edm_packages).count name = 1)
      ∧ (∀ name ∈ expected_pip_packages "edm",
          (splitSpaces p.pip_packages).count name = 1) :=
  get_parameters_each_package_once "2.7" none "pyside" "edm" (Or.inl rfl) (Or.inl rfl)

/-- C2 counterexample: `get_parameters` is not side-effect free.  With source
`pypi` the code aliases the module-level set `pypi_dependencies` and `add`s
the enaml entry to it, so the module configuration after the call differs
from the one before. -/
theorem get_parameters_mutates_pypi_dependencies :
    (configOf (get_parameters initialConfig "2.7" "pyside" none "latest" "pypi")).map
        Config.pypi_dependencies
      = some ["traits", "traitsui", "pyopengl", "mayavi", "enaml"]
    ∧ some initialConfig.pypi_dependencies
      ≠ (configOf (get_parameters initialConfig "2.7" "pyside" none "latest" "pypi")).map
          Config.pypi_dependencies := by
  exact ⟨rfl, by decide⟩

/-- C2 amended: `get_parameters` leaves `dependencies`, `test_dependencies`,
`toolkits` and `repo_dependencies` unchanged, and with source `edm` or
`github` the whole module configuration is unchanged; but with source `pypi`
it mutates the module-level `pypi_dependencies` set by adding the
version-dependent enaml entry.  (Determinism holds: the embedding is a
function of the arguments and the module configuration.) -/
theorem get_parameters_frame (cfg : Config) (runtime toolkit version source : String)
    (env : Option String) (p : Parameters) (cfg' : Config)
    (h : get_parameters cfg runtime toolkit env version source = Except.ok (p, cfg')) :
    cfg'.dependencies = cfg.dependencies
    ∧ cfg'.test_dependencies = cfg.test_dependencies
    ∧ cfg'.toolkits = cfg.toolkits
    ∧ cfg'.repo_dependencies = cfg.repo_dependencies
    ∧ ((source = "edm" ∨ source = "github") → cfg' = cfg)
    ∧ (source = "pypi" → cfg'.pypi_dependencies =
        setAdd cfg.pypi_dependencies
          (if version = "latest" then "enaml" else "enaml==" ++ version)) := by
  by_cases h1 : source = "edm"
  · subst h1
    simp only [get_parameters, reduceIte] at h
    obtain ⟨hp, hc⟩ := Prod.mk.inj (Except.ok.inj h)
    subst hc
    exact ⟨rfl, rfl, rfl, rfl, fun _ => rfl, fun hsrc => absurd hsrc (by decide)⟩
  · by_cases h2 : source = "pypi"
    · subst h2
      simp only [get_parameters, reduceIte] at h
      obtain ⟨hp, hc⟩ := Prod.mk.inj (Except.ok.inj h)
      subst hc
      refine ⟨rfl, rfl, rfl, rfl, fun hsrc => absurd hsrc (by decide), fun _ => ?_⟩
      by_cases hv : version = "latest" <;> simp [hv]
    · by_cases h3 : source = "github"
      · subst h3
        simp only [get_parameters, reduceIte] at h
        obtain ⟨hp, hc⟩ := Prod.mk.inj (Except.ok.inj h)
        subst hc
        exact ⟨rfl, rfl, rfl, rfl, fun _ => rfl, fun hsrc => absurd hsrc (by decide)⟩
      · simp only [get_parameters, if_neg h1, if_neg h2, if_neg h3] at h
        exact Except.noConfusion h

/-- Witness for C2's amended theorem at source `pypi`, version `latest`. -/
theorem get_parameters_frame_witness :
    ({ initialConfig with
        pypi_dependencies :=
          ["traits", "traitsui", "pyopengl", "mayavi", "enaml"] } : Config).dependencies
        = initialConfig.dependencies
    ∧ ({ initialConfig with
        pypi_dependencies :=
          ["traits", "traitsui", "pyopengl", "mayavi", "enaml"] } : Config).test_dependencies
        = initialConfig.test_dependencies
    ∧ ({ initialConfig with
        pypi_dependencies :=
          ["traits", "traitsui", "pyopengl", "mayavi", "enaml"] } : Config).toolkits
        = initialConfig.toolkits
    ∧ ({ initialConfig with
        pypi_dependencies :=
          ["traits", "traitsui", "pyopengl", "mayavi", "enaml"] } : Config).repo_dependencies
        = initialConfig.repo_dependencies
    ∧ (("pypi" = "edm" ∨ "pypi" = "github") →
        ({ initialConfig with
            pypi_dependencies :=
              ["traits", "traitsui", "pyopengl", "mayavi", "enaml"] } : Config)
          = initialConfig)
    ∧ ("pypi" = "pypi" →
        ({ initialConfig with
            pypi_dependencies :=
              ["traits", "traitsui", "pyopengl", "mayavi", "enaml"] } : Config).pypi_dependencies
          = setAdd initialConfig.pypi_dependencies
              (if "latest" = "latest" then "enaml" else "enaml==" ++ "latest")) :=
  get_parameters_frame initialConfig "2.7" "pyside" "latest" "pypi" none _ _ rfl

/-- C3: for every source outside the recognized set, `get_parameters` raises
the `ValueError` and returns no Parameter Set. -/
theorem get_parameters_invalid_source (cfg : Config) (runtime toolkit version source : String)
    (env : Option String)
    (h1 : source ≠ "edm") (h2 : source ≠ "pypi") (h3 : source ≠ "github") :
    get_parameters cfg runtime toolkit env version source
      = Except.error ("Invalid value for the package source: " ++ source) := by
  simp only [get_parameters, if_neg h1, if_neg h2, if_neg h3]

/-- Witness for C3 at source `conda`. -/
theorem get_parameters_invalid_source_witness :
    get_parameters initialConfig "2.7" "pyside" none "latest" "conda"
      = Except.error ("Invalid value for the package source: " ++ "conda") :=
  get_parameters_invalid_source initialConfig "2.7" "pyside" "latest" "conda" none
    (by decide) (by decide) (by decide)

/-- C6: when no environment override is supplied the `environment` field of
the returned Parameter Set is `traits-enaml-` followed by the runtime, a
dash and the toolkit; when an override is supplied the field equals it. -/
theorem get_parameters_environment_field (cfg : Config)
    (runtime toolkit version source : String)
    (hs : source = "edm" ∨ source = "pypi" ∨ source = "github") :
    (paramsOf (get_parameters cfg runtime toolkit none version source)).map
        Parameters.environment
      = some ("traits-enaml-" ++ runtime ++ "-" ++ toolkit)
    ∧ ∀ e : String,
        (paramsOf (get_parameters cfg runtime toolkit (some e) version source)).map
            Parameters.environment
          = some e := by
  rcases hs with rfl | rfl | rfl <;> exact ⟨rfl, fun e => rfl⟩

/-- Witness for C6 at source `edm`, runtime `2.7`, toolkit `pyside`. -/
theorem get_parameters_environment_field_witness :
    (paramsOf (get_parameters initialConfig "2.7" "pyside" none "latest" "edm")).map
        Parameters.environment
      = some ("traits-enaml-" ++ "2.7" ++ "-" ++ "pyside")
    ∧ ∀ e : String,
        (paramsOf (get_parameters initialConfig "2.7" "pyside" (some e) "latest" "edm")).map
            Parameters.environment
          = some e :=
  get_parameters_environment_field initialConfig "2.7" "pyside" "latest" "edm" (Or.inl rfl)

/-- C9: an unrecognized toolkit contributes no toolkit packages and does not
make `get_parameters` raise: for every valid source the call succeeds and
`edm_packages` is exactly the test dependencies, the base dependencies, and
the enaml entry when the source is `edm`. -/
theorem get_parameters_unknown_toolkit (runtime toolkit source : String)
    (env : Option String)
    (ht1 : toolkit ≠ "pyside") (ht2 : toolkit ≠ "pyqt4")
    (hs : source = "edm" ∨ source = "pypi" ∨ source = "github") :
    (paramsOf (get_parameters initialConfig runtime toolkit env "latest" source)).map
        (fun p => splitSpaces p.edm_packages)
      = some (expected_test_packages ++ expected_base_packages
          ++ (if source = "edm" then ["enaml"] else [])) := by
  have hb1 : (toolkit == "pyside") = false := beq_eq_false_iff_ne.mpr ht1
  have hb2 : (toolkit == "pyqt4") = false := beq_eq_false_iff_ne.mpr ht2
  have hl : initialConfig.toolkits.lookup toolkit = none := by
    simp [initialConfig, List.lookup, hb1, hb2]
  rcases hs with rfl | rfl | rfl <;>
    · simp only [get_parameters, paramsOf, hl, reduceIte, Option.map]
      exact congrArg some (of_decide_eq_true rfl)

/-- Witness for C9 at toolkit `pyqt` (the toolkit the docstring names) and
source `edm`. -/
theorem get_parameters_unknown_toolkit_witness :
    (paramsOf (get_parameters initialConfig "2.7" "pyqt" none "latest" "edm")).map
        (fun p => splitSpaces p.edm_packages)
      = some (expected_test_packages ++ expected_base_packages
          ++ (if "edm" = "edm" then ["enaml"] else [])) :=
  get_parameters_unknown_toolkit "2.7" "pyqt" "edm" none (by decide) (by decide) (Or.inl rfl)

/-- C4: for every invocation of `do_in_tempdir` and every wrapped action, on
every exit path -- the action completing normally or raising -- the original
working directory is restored and the temporary directory is deleted; the
action's outcome is propagated; and the capture-pattern result files are
copied back exactly on normal completion of the action. -/
theorem do_in_tempdir_restores_and_cleans (files capture_files : List String)
    (path : String) (action : PState → Outcome Unit × PState) (s : PState) :
    (do_in_tempdir files capture_files path action s).2.cwd = s.cwd
    ∧ path ∉ (do_in_tempdir files capture_files path action s).2.dirs
    ∧ (do_in_tempdir files capture_files path action s).1
        = (action (chdirStep path (copyInStep files (mkdtempStep path s)))).1
    ∧ (∀ u s4,
        action (chdirStep path (copyInStep files (mkdtempStep path s)))
            = (Outcome.ok u, s4) →
        (do_in_tempdir files capture_files path action s).2.returnedFiles
          = s4.returnedFiles ++ capture_files)
    ∧ (∀ e s4,
        action (chdirStep path (copyInStep files (mkdtempStep path s)))
            = (Outcome.exn e, s4) →
        (do_in_tempdir files capture_files path action s).2.returnedFiles
          = s4.returnedFiles) := by
  rcases h : action (chdirStep path (copyInStep files (mkdtempStep path s))) with ⟨o, s4⟩
  cases o with
  | ok u =>
    refine ⟨?_, ?_, ?_, ?_, ?_⟩
    · simp only [do_in_tempdir]
      rw [h]
      simp [chdirStep, copyBackStep, rmtreeStep]
    · simp only [do_in_tempdir]
      rw [h]
      simp [chdirStep, copyBackStep, rmtreeStep, List.mem_filter]
    · simp only [do_in_tempdir]
      rw [h]
    · intro u' s4' h'
      obtain ⟨h1, h2⟩ := Prod.mk.inj h'
      subst h2
      simp only [do_in_tempdir]
      rw [h]
      simp [chdirStep, copyBackStep, rmtreeStep]
    · intro e s4' h'
      exact absurd (Prod.mk.inj h').1 (fun hh => Outcome.noConfusion hh)
  | exn e =>
    refine ⟨?_, ?_, ?_, ?_, ?_⟩
    · simp only [do_in_tempdir]
      rw [h]
      simp [chdirStep, rmtreeStep]
    · simp only [do_in_tempdir]
      rw [h]
      simp [chdirStep, rmtreeStep, List.mem_filter]
    · simp only [do_in_tempdir]
      rw [h]
    · intro u' s4' h'
      exact absurd (Prod.mk.inj h').1 (fun hh => Outcome.noConfusion hh)
    · intro e' s4' h'
      obtain ⟨h1, h2⟩ := Prod.mk.inj h'
      subst h2
      simp only [do_in_tempdir]
      rw [h]
      simp [chdirStep, rmtreeStep]

/-- C5: the Command Executor runs the commands strictly in order through
their formatted arguments.  If every command exits zero it completes
normally (no `sys.exit`, overall exit code 0) with an `[EXECUTING]` and a
`[DURATION]` line per command; if a command exits non-zero after a prefix of
successes, the log still contains that command's `[EXECUTING]` and
`[DURATION]` lines, the process terminates with exit status 1, and no later
command is run. -/
theorem execute_stops_at_first_failure (run : String → Int) (parameters : Parameters) :
    (∀ commands : List String,
      (∀ c ∈ commands, run (pyFormat parameters c) = 0) →
      execute run commands parameters = (commandLog parameters commands, none))
    ∧ (∀ pre cmd post,
        (∀ c ∈ pre, run (pyFormat parameters c) = 0) →
        run (pyFormat parameters cmd) ≠ 0 →
        execute run (pre ++ cmd :: post) parameters
          = (commandLog parameters pre
              ++ [ExecEvent.executing (pyFormat parameters cmd),
                  ExecEvent.duration (pyFormat parameters cmd)], some 1)) := by
  constructor
  · intro commands h
    induction commands with
    | nil => rfl
    | cons c rest ih =>
      have hc : run (pyFormat parameters c) = 0 := h c (by simp)
      have hrest := ih (fun x hx => h x (List.mem_cons_of_mem _ hx))
      simp only [execute, commandLog, if_pos hc, hrest]
  · intro pre cmd post hpre hcmd
    induction pre with
    | nil =>
      simp only [List.nil_append, execute, commandLog, if_neg hcmd]
    | cons a pre' ih =>
      have ha : run (pyFormat parameters a) = 0 := hpre a (by simp)
      have hrest := ih (fun x hx => hpre x (List.mem_cons_of_mem _ hx))
      simp only [List.cons_append, execute, commandLog, if_pos ha, List.append_eq, hrest]

/-- C7 failing evaluation: the `test_clean` subcommand declares the
`environment` option but its function signature lacks the parameter, so
every click invocation of it raises `TypeError`; the other four subcommands
have matching declarations and signatures, and each restricts the toolkit
flag to the two known values. -/
theorem test_clean_signature_mismatch :
    invocationRaisesTypeError test_clean_command = true
    ∧ invocationRaisesTypeError install_command = false
    ∧ invocationRaisesTypeError test_command = false
    ∧ invocationRaisesTypeError cleanup_command = false
    ∧ invocationRaisesTypeError update_command = false
    ∧ (∀ c ∈ [install_command, test_command, cleanup_command,
        test_clean_command, update_command],
        ⟨"toolkit", some toolkitChoices⟩ ∈ c.options
        ∧ ⟨"runtime", (none : Option (List String))⟩ ∈ c.options
        ∧ ⟨"environment", (none : Option (List String))⟩ ∈ c.options) := by
  decide

/-- C8: the body of `test_clean` always runs the cleanup step: whatever the
outcomes of the install, test and cleanup steps, the performed-step log ends
with the cleanup step's log, the install step raising or the test step
raising included. -/
theorem test_clean_always_cleans_up
    (installOut testOut cleanupOut : Outcome Unit)
    (installLog testLog cleanupLog : List String) :
    ∃ pre,
      (test_clean (installLog, installOut) (testLog, testOut)
          (cleanupLog, cleanupOut)).1
        = pre ++ cleanupLog := by
  cases installOut <;> cases testOut <;> cases cleanupOut <;>
    exact ⟨_, rfl⟩

/-- C10: with toolkit `pyqt4` the `test` subcommand applies no
toolkit-specific environment variables -- the `environment_vars` table is
keyed by `pyside` and `pyqt`, so the `pyqt4` lookup falls through to the
empty default and only `PYTHONUNBUFFERED=1` is set -- while `pyside` does
get its toolkit entries. -/
theorem test_environ_pyqt4_only_unbuffered :
    test_environ "pyqt4" = [("PYTHONUNBUFFERED", "1")]
    ∧ environment_vars.lookup "pyqt4" = none
    ∧ test_environ "pyside"
      = [("ETS_TOOLKIT", "qt4"), ("QT_API", "pyside"), ("PYTHONUNBUFFERED", "1")] := by
  decide

end Etstool
